import Mathlib

set_option maxHeartbeats 1000000
set_option maxRecDepth 4000

/-! Shallow embedding of the PromptEnhancer backend core: the Redis-backed
daily quota ledger (`checkAnonQuota` / `checkUserQuota` / `linkAnonQuota` in
the redis service), the session store (`models/Session.ts`, `routes/session`),
the merge endpoint, the input classifier and the context builder
(`services/context`).  Machine strings are modelled by Lean `String` viewed
as its list of characters; Redis keys for one identity and one UTC day are
modelled by an optional counter entry (absent key = `none`). -/

namespace PromptEnhancer

/-- A Redis daily-counter key's state: the integer count and the TTL
(seconds until UTC midnight) set by the last EXPIRE. -/
structure CounterEntry where
  count : Nat
  ttl : Nat
  deriving Repr, DecidableEq

/-- `current ? parseInt(current, 10) : 0` — an absent key reads as zero. -/
def countOf : Option CounterEntry → Nat
  | some e => e.count
  | none => 0

/-- Result shape of the quota checks: `{ allowed, remaining }`. -/
structure QuotaResult where
  allowed : Bool
  remaining : Nat
  deriving Repr, DecidableEq

/-- The `MULTI INCR key / EXPIRE key ttl / EXEC` block: increment the counter
(an absent key becomes 1) and refresh its midnight-aligned TTL. -/
def incrExpire (entry : Option CounterEntry) (ttl : Nat) : CounterEntry :=
  { count := countOf entry + 1, ttl := ttl }

/-- `checkAnonQuota` / `checkUserQuota` / `checkIpQuota`, generic in the
ceiling, run to completion without interleaving: GET the counter; if
`count >= ceiling` return `{allowed:false, remaining:0}` leaving the key
untouched; otherwise INCR+EXPIRE and return
`{allowed:true, remaining: ceiling - count - 1}`. -/
def checkQuota (ceiling : Nat) (entry : Option CounterEntry) (ttl : Nat) :
    QuotaResult × Option CounterEntry :=
  let count := countOf entry
  if ceiling ≤ count then
    ({ allowed := false, remaining := 0 }, entry)
  else
    ({ allowed := true, remaining := ceiling - count - 1 }, some (incrExpire entry ttl))

/-- `checkAnonQuota`: anonymous limit is 10/day. -/
def checkAnonQuota : Option CounterEntry → Nat → QuotaResult × Option CounterEntry :=
  checkQuota 10

/-- `checkUserQuota`: authenticated limit is 20/day. -/
def checkUserQuota : Option CounterEntry → Nat → QuotaResult × Option CounterEntry :=
  checkQuota 20

/-- Two concurrent `checkQuota` calls on the same key under the schedule
GET₁, GET₂, MULTI₁, MULTI₂.  Each call in the source is a plain `await
redis.get(key)` followed (when the read count is below the ceiling) by a
separate `MULTI INCR/EXPIRE`; only each individual Redis command is atomic,
so both GETs can land before either MULTI commits.  Returns the two results
and the final key state. -/
def twoInterleavedCalls (ceiling : Nat) (entry : Option CounterEntry) (ttl : Nat) :
    QuotaResult × QuotaResult × Option CounterEntry :=
  let c1 := countOf entry
  let c2 := countOf entry
  let rs1 :=
    if ceiling ≤ c1 then ({ allowed := false, remaining := 0 : QuotaResult }, entry)
    else ({ allowed := true, remaining := ceiling - c1 - 1 }, some (incrExpire entry ttl))
  let rs2 :=
    if ceiling ≤ c2 then ({ allowed := false, remaining := 0 : QuotaResult }, rs1.2)
    else ({ allowed := true, remaining := ceiling - c2 - 1 }, some (incrExpire rs1.2 ttl))
  (rs1.1, rs2.1, rs2.2)

/-- Trace of `n` sequential `checkAnonQuota` calls against one key, recording
each call's result and the key state after it. -/
def runAnonTrace : Nat → Option CounterEntry → Nat → List (QuotaResult × Option CounterEntry)
  | 0, _, _ => []
  | n + 1, st, ttl =>
    let rs := checkAnonQuota st ttl
    (rs.1, rs.2) :: runAnonTrace n rs.2 ttl

/-- C1: the claim says ceiling + k concurrent `checkAndIncrement` calls admit
exactly `ceiling` — two concurrent calls are never both admitted when one
slot remains.  The code's GET-then-separate-MULTI is not atomic: with the
anonymous counter at 9 (one slot below the ceiling of 10), the interleaving
GET₁, GET₂, INCR₁, INCR₂ admits BOTH calls and drives the counter to 11,
refuting the claimed bound for the code as written. -/
theorem checkAnonQuota_race_admits_both :
    twoInterleavedCalls 10 (some { count := 9, ttl := 3600 }) 3600 =
      ({ allowed := true, remaining := 0 },
       { allowed := true, remaining := 0 },
       some { count := 11, ttl := 3600 }) := by
  rfl

/-- C3: starting from an absent anonymous counter, the first 10
`checkAnonQuota` calls are allowed with `remaining` counting down
9, 8, ..., 0, each incrementing the counter by exactly one and refreshing
its midnight-aligned TTL; the 11th call is rejected with `remaining = 0`
and leaves the counter untouched. -/
theorem checkAnonQuota_sequential_countdown (ttl : Nat) :
    runAnonTrace 11 none ttl =
      [({ allowed := true, remaining := 9 }, some { count := 1, ttl := ttl }),
       ({ allowed := true, remaining := 8 }, some { count := 2, ttl := ttl }),
       ({ allowed := true, remaining := 7 }, some { count := 3, ttl := ttl }),
       ({ allowed := true, remaining := 6 }, some { count := 4, ttl := ttl }),
       ({ allowed := true, remaining := 5 }, some { count := 5, ttl := ttl }),
       ({ allowed := true, remaining := 4 }, some { count := 6, ttl := ttl }),
       ({ allowed := true, remaining := 3 }, some { count := 7, ttl := ttl }),
       ({ allowed := true, remaining := 2 }, some { count := 8, ttl := ttl }),
       ({ allowed := true, remaining := 1 }, some { count := 9, ttl := ttl }),
       ({ allowed := true, remaining := 0 }, some { count := 10, ttl := ttl }),
       ({ allowed := false, remaining := 0 }, some { count := 10, ttl := ttl })] := by
  rfl

/-- The three Redis keys touched by `linkAnonQuota` for one (user, anon,
UTC day) triple: the anonymous counter, the user counter, and the link
marker (`some ttl` when the SETEX marker exists). -/
structure LinkState where
  anonEntry : Option CounterEntry
  userEntry : Option CounterEntry
  linkMarker : Option Nat
  deriving Repr, DecidableEq

/-- `linkAnonQuota(userId, anonId)` run to completion: (1) EXISTS on the
link marker — if present, return `{linked:false, count:0}`; (2) GET the
anonymous counter (absent reads 0) — if zero, return
`{linked:false, count:0}` without creating a marker; (3) otherwise
`MULTI INCRBY userKey count / EXPIRE userKey ttl / SETEX linkKey ttl '1'`
and return `{linked:true, count}`.  The anonymous counter is intentionally
left in place. -/
def linkAnonQuota (st : LinkState) (ttl : Nat) : (Bool × Nat) × LinkState :=
  if st.linkMarker.isSome then ((false, 0), st)
  else
    let count := countOf st.anonEntry
    if count = 0 then ((false, 0), st)
    else
      ((true, count),
       { st with
          userEntry := some { count := countOf st.userEntry + count, ttl := ttl },
          linkMarker := some ttl })

/-- C4: with no link marker for (user, anon, today) and a positive anonymous
count `c`, the first `linkAnonQuota` call returns `(linked := true, c)`,
adds `c` to the user's counter (refreshing its TTL), sets the marker, and
leaves the anonymous counter alone; any second call the same day — on any
TTL — returns `(linked := false, 0)` and changes nothing, so the user's
counter reflects the anonymous count exactly once. -/
theorem linkAnonQuota_idempotent (st : LinkState) (ttl ttl' c : Nat)
    (hm : st.linkMarker = none) (hc : countOf st.anonEntry = c) (hpos : 0 < c) :
    (linkAnonQuota st ttl).1 = (true, c) ∧
    (linkAnonQuota st ttl).2.userEntry =
      some { count := countOf st.userEntry + c, ttl := ttl } ∧
    (linkAnonQuota st ttl).2.linkMarker = some ttl ∧
    (linkAnonQuota st ttl).2.anonEntry = st.anonEntry ∧
    linkAnonQuota (linkAnonQuota st ttl).2 ttl' = ((false, 0), (linkAnonQuota st ttl).2) := by
  have hzero : ¬ countOf st.anonEntry = 0 := by omega
  have hc0 : ¬ c = 0 := by omega
  simp [linkAnonQuota, hm, hc, hzero, hc0]

/-- Witness for C4 at a concrete state: anonymous counter 3, user counter 5,
no marker; linking yields `(true, 3)`, user counter 8, marker set, and a
replay is a no-op. -/
theorem linkAnonQuota_idempotent_witness :
    (linkAnonQuota { anonEntry := some { count := 3, ttl := 900 },
                     userEntry := some { count := 5, ttl := 900 },
                     linkMarker := none } 600).1 = (true, 3) ∧
    (linkAnonQuota { anonEntry := some { count := 3, ttl := 900 },
                     userEntry := some { count := 5, ttl := 900 },
                     linkMarker := none } 600).2.userEntry =
      some { count := countOf (some { count := 5, ttl := 900 }) + 3, ttl := 600 } ∧
    (linkAnonQuota { anonEntry := some { count := 3, ttl := 900 },
                     userEntry := some { count := 5, ttl := 900 },
                     linkMarker := none } 600).2.linkMarker = some 600 ∧
    (linkAnonQuota { anonEntry := some { count := 3, ttl := 900 },
                     userEntry := some { count := 5, ttl := 900 },
                     linkMarker := none } 600).2.anonEntry =
      some { count := 3, ttl := 900 } ∧
    linkAnonQuota (linkAnonQuota { anonEntry := some { count := 3, ttl := 900 },
                                   userEntry := some { count := 5, ttl := 900 },
                                   linkMarker := none } 600).2 500 =
      ((false, 0), (linkAnonQuota { anonEntry := some { count := 3, ttl := 900 },
                                    userEntry := some { count := 5, ttl := 900 },
                                    linkMarker := none } 600).2) :=
  linkAnonQuota_idempotent
    { anonEntry := some { count := 3, ttl := 900 },
      userEntry := some { count := 5, ttl := 900 },
      linkMarker := none } 600 500 3 rfl rfl (by decide)

/-- C5: with no link marker and a zero-or-absent anonymous counter,
`linkAnonQuota` returns `(linked := false, 0)` and leaves the whole state —
both counters and the absent marker — untouched; consequently a later call
the same day, after the anonymous counter has become positive, still links. -/
theorem linkAnonQuota_zero_noop (st : LinkState) (ttl : Nat)
    (hm : st.linkMarker = none) (hz : countOf st.anonEntry = 0) :
    linkAnonQuota st ttl = ((false, 0), st) ∧
    ∀ e : CounterEntry, ∀ ttl' : Nat, 0 < e.count →
      (linkAnonQuota { st with anonEntry := some e } ttl').1 =
        (true, e.count) := by
  constructor
  · simp [linkAnonQuota, hm, hz]
  · intro e ttl' he
    have hzero : ¬ e.count = 0 := by omega
    simp [linkAnonQuota, hm, countOf, hzero]

/-- Witness for C5 at a concrete state: absent anonymous counter, user
counter 5, no marker; the call is a no-op and a later positive count of 4
still links. -/
theorem linkAnonQuota_zero_noop_witness :
    linkAnonQuota { anonEntry := none,
                    userEntry := some { count := 5, ttl := 900 },
                    linkMarker := none } 600 =
      ((false, 0), { anonEntry := none,
                     userEntry := some { count := 5, ttl := 900 },
                     linkMarker := none }) ∧
    ∀ e : CounterEntry, ∀ ttl' : Nat, 0 < e.count →
      (linkAnonQuota { anonEntry := some e,
                       userEntry := some { count := 5, ttl := 900 },
                       linkMarker := none } ttl').1 = (true, e.count) :=
  linkAnonQuota_zero_noop
    { anonEntry := none,
      userEntry := some { count := 5, ttl := 900 },
      linkMarker := none } 600 rfl rfl

/-- `ISynopsis` from `models/Session.ts`: five optional scalar fields plus an
optional to-do list.  `none` models an absent key. -/
structure Synopsis where
  goal : Option String
  tone : Option String
  constraints : Option String
  audience : Option String
  style : Option String
  todos : Option (List String)
  deriving Repr, DecidableEq

/-- The default synopsis `{}` installed on creation. -/
def emptySynopsis : Synopsis :=
  { goal := none, tone := none, constraints := none, audience := none,
    style := none, todos := none }

/-- `ISession`: the two optional ownership fields (`userId`, `anonId`), the
optional title, the synopsis and its version counter.  `id` stands for the
Mongo `_id` assigned to the document. -/
structure Session where
  id : String
  userId : Option String
  anonId : Option String
  title : Option String
  synopsis : Synopsis
  synopsisVersion : Nat
  deriving Repr, DecidableEq

/-- `Session.createSession(userId?, title?, anonId?)`: stores the owner
fields exactly as supplied, an empty synopsis and version 0. -/
def createSession (id : String) (userId : Option String) (title : Option String)
    (anonId : Option String) : Session :=
  { id := id, userId := userId, anonId := anonId, title := title,
    synopsis := emptySynopsis, synopsisVersion := 0 }

/-- The mutual-exclusivity invariant claimed for sessions: exactly one of
the two ownership fields is set. -/
def hasExactlyOneOwner (s : Session) : Bool :=
  (s.userId.isSome && s.anonId.isNone) || (s.userId.isNone && s.anonId.isSome)

/-- Auto-create in `POST /enhance`: `Session.createSession(userId, undefined,
anonId)`, where `userId` is `req.userId` (set when the caller is
authenticated) and `anonId` is `req.anonId`, which the anonId middleware
always sets (from the cookie, or freshly generated). -/
def autoCreateSession (id : String) (userId : Option String) (anonId : String) : Session :=
  createSession id userId none (some anonId)

/-- C2: the claim says every created session has exactly one owner field
set, even for an authenticated caller that carries an anonymous cookie.
The auto-create path passes BOTH `req.userId` and `req.anonId` through to
`createSession`, so an authenticated user "u1" with anonymous id "a1" gets
a session with both ownership fields set, refuting the invariant. -/
theorem autoCreateSession_sets_both_owners :
    (autoCreateSession "s1" (some "u1") "a1").userId = some "u1" ∧
    (autoCreateSession "s1" (some "u1") "a1").anonId = some "a1" ∧
    hasExactlyOneOwner (autoCreateSession "s1" (some "u1") "a1") = false := by
  refine ⟨rfl, rfl, ?_⟩
  rfl

/-- JS object spread `{...old, ...upd}` on one optional field: a key present
in the update overwrites, an absent key keeps the old value. -/
def mergeField : Option String → Option String → Option String
  | some v, _ => some v
  | none, old => old

/-- The synopsis merge performed by `session.updateSynopsis`:
`this.synopsis = { ...this.synopsis, ...newSynopsis }`. -/
def mergeSynopsis (old upd : Synopsis) : Synopsis :=
  { goal := mergeField upd.goal old.goal,
    tone := mergeField upd.tone old.tone,
    constraints := mergeField upd.constraints old.constraints,
    audience := mergeField upd.audience old.audience,
    style := mergeField upd.style old.style,
    todos := match upd.todos with
             | some ts => some ts
             | none => old.todos }

/-- `session.updateSynopsis(newSynopsis)`: field-wise spread merge, then
`synopsisVersion += 1` (the `lastMessageAt` touch is not modelled). -/
def updateSynopsis (s : Session) (upd : Synopsis) : Session :=
  { s with synopsis := mergeSynopsis s.synopsis upd,
           synopsisVersion := s.synopsisVersion + 1 }

/-- C8: `updateSynopsis` is a field-wise merge, never a full replace: for
every session and partial update, each field omitted by the update keeps
its previous value, and `synopsisVersion` increases by exactly 1. -/
theorem updateSynopsis_preserves_omitted_fields (s : Session) (upd : Synopsis) :
    (updateSynopsis s upd).synopsisVersion = s.synopsisVersion + 1 ∧
    (upd.goal = none → (updateSynopsis s upd).synopsis.goal = s.synopsis.goal) ∧
    (upd.tone = none → (updateSynopsis s upd).synopsis.tone = s.synopsis.tone) ∧
    (upd.constraints = none →
      (updateSynopsis s upd).synopsis.constraints = s.synopsis.constraints) ∧
    (upd.audience = none →
      (updateSynopsis s upd).synopsis.audience = s.synopsis.audience) ∧
    (upd.style = none → (updateSynopsis s upd).synopsis.style = s.synopsis.style) ∧
    (upd.todos = none → (updateSynopsis s upd).synopsis.todos = s.synopsis.todos) := by
  refine ⟨rfl, ?_, ?_, ?_, ?_, ?_, ?_⟩ <;>
    intro h <;>
    simp [updateSynopsis, mergeSynopsis, mergeField, h]

/-- Witness for C8 at the spec's example: a session whose synopsis already
has `tone` set, updated with only `goal`: `tone` is unchanged and the
version bumps from 7 to 8. -/
theorem updateSynopsis_preserves_omitted_fields_witness :
    (updateSynopsis
        { id := "s1", userId := none, anonId := some "a1", title := none,
          synopsis := { emptySynopsis with tone := some "formal" },
          synopsisVersion := 7 }
        { emptySynopsis with goal := some "ship it" }).synopsisVersion = 7 + 1 ∧
    (updateSynopsis
        { id := "s1", userId := none, anonId := some "a1", title := none,
          synopsis := { emptySynopsis with tone := some "formal" },
          synopsisVersion := 7 }
        { emptySynopsis with goal := some "ship it" }).synopsis.tone =
      ({ emptySynopsis with tone := some "formal" } : Synopsis).tone :=
  ⟨(updateSynopsis_preserves_omitted_fields
      { id := "s1", userId := none, anonId := some "a1", title := none,
        synopsis := { emptySynopsis with tone := some "formal" },
        synopsisVersion := 7 }
      { emptySynopsis with goal := some "ship it" }).1,
   (updateSynopsis_preserves_omitted_fields
      { id := "s1", userId := none, anonId := some "a1", title := none,
        synopsis := { emptySynopsis with tone := some "formal" },
        synopsisVersion := 7 }
      { emptySynopsis with goal := some "ship it" }).2.2.1 rfl⟩

/-- The Mongo filter built by `GET /session/:id` (and PUT/DELETE alike):
`{ _id: sessionId }` plus `userId` when the caller is authenticated,
otherwise plus `anonId` when an anonymous id is present; with neither, the
route answers 404 before querying (modelled as a filter matching nothing). -/
def matchesOwnedQuery (sessionId : String) (userId anonId : Option String)
    (s : Session) : Bool :=
  match userId with
  | some u => s.id == sessionId && s.userId == some u
  | none =>
    match anonId with
    | some a => s.id == sessionId && s.anonId == some a
    | none => false

/-- `Session.findOne(query)` over the stored sessions. -/
def findOwnedSession (store : List Session) (sessionId : String)
    (userId anonId : Option String) : Option Session :=
  store.find? (matchesOwnedQuery sessionId userId anonId)

/-- C6: lookup is ownership-filtered.  With `_id` unique in the store, a
session owned only by anonymous-id A is not found under a different
anonymous-id B nor under any user-id-only query, and a session owned only
by user-id U is not found under any anonymous-id-only query — even though
the session id itself is presented. -/
theorem findOwnedSession_filters_by_owner (store : List Session) (s : Session)
    (hs : s ∈ store) (huniq : ∀ s' ∈ store, s'.id = s.id → s' = s) :
    (∀ A, s.anonId = some A → s.userId = none →
      (∀ B, B ≠ A → findOwnedSession store s.id none (some B) = none) ∧
      (∀ U, findOwnedSession store s.id (some U) none = none)) ∧
    (∀ U, s.userId = some U → s.anonId = none →
      ∀ B, findOwnedSession store s.id none (some B) = none) := by
  have key : ∀ u a : Option String,
      (matchesOwnedQuery s.id u a s = false) →
      findOwnedSession store s.id u a = none := by
    intro u a hself
    apply List.find?_eq_none.mpr
    intro x hx
    by_cases hid : x.id = s.id
    · rw [huniq x hx hid]
      simp [hself]
    · cases u with
      | some u' => simp [matchesOwnedQuery, hid]
      | none =>
        cases a with
        | some a' => simp [matchesOwnedQuery, hid]
        | none => simp [matchesOwnedQuery]
  constructor
  · intro A hA hU
    constructor
    · intro B hB
      apply key
      simp [matchesOwnedQuery, hA]
      intro h
      exact absurd h.symm hB
    · intro U
      apply key
      simp [matchesOwnedQuery, hU]
  · intro U hU hA
    intro B
    apply key
    simp [matchesOwnedQuery, hA]

/-- Witness for C6 on a concrete two-session store: session "s1" owned only
by anonymous-id "a1" is invisible to anonymous-id "b2" and to user "u1",
and session "s2" owned only by user "u1" is invisible to any anonymous-only
query. -/
theorem findOwnedSession_filters_by_owner_witness :
    (∀ A, ({ id := "s1", userId := none, anonId := some "a1", title := none,
             synopsis := emptySynopsis, synopsisVersion := 0 } : Session).anonId = some A →
      ({ id := "s1", userId := none, anonId := some "a1", title := none,
         synopsis := emptySynopsis, synopsisVersion := 0 } : Session).userId = none →
      (∀ B, B ≠ A →
        findOwnedSession
          [{ id := "s1", userId := none, anonId := some "a1", title := none,
             synopsis := emptySynopsis, synopsisVersion := 0 }] "s1" none (some B) = none) ∧
      (∀ U, findOwnedSession
          [{ id := "s1", userId := none, anonId := some "a1", title := none,
             synopsis := emptySynopsis, synopsisVersion := 0 }] "s1" (some U) none = none)) ∧
    (∀ U, ({ id := "s1", userId := none, anonId := some "a1", title := none,
             synopsis := emptySynopsis, synopsisVersion := 0 } : Session).userId = some U →
      ({ id := "s1", userId := none, anonId := some "a1", title := none,
         synopsis := emptySynopsis, synopsisVersion := 0 } : Session).anonId = none →
      ∀ B, findOwnedSession
          [{ id := "s1", userId := none, anonId := some "a1", title := none,
             synopsis := emptySynopsis, synopsisVersion := 0 }] "s1" none (some B) = none) :=
  findOwnedSession_filters_by_owner
    [{ id := "s1", userId := none, anonId := some "a1", title := none,
       synopsis := emptySynopsis, synopsisVersion := 0 }]
    { id := "s1", userId := none, anonId := some "a1", title := none,
      synopsis := emptySynopsis, synopsisVersion := 0 }
    (by simp)
    (by intro s' hs' hid; simpa using hs')

/-- A turn record (`IPrompt` in `models/Prompt.ts`): the fields the merge
touches or filters on.  The schema has no `anonId` field — an anonymous
turn simply has `userId` absent. -/
structure PromptRec where
  id : String
  userId : Option String
  sessionId : Option String
  original : String
  enhanced : String
  deriving Repr, DecidableEq

/-- `POST /session/:id/merge`: find the session by
`{ _id: sessionId, anonId }` (404 when absent, modelled as `none`); then
set `session.userId = userId; session.anonId = undefined` and save, and
`Prompt.updateMany({ sessionId }, { userId, anonId: undefined })` — every
turn of the session gets the new `userId` (the `anonId: undefined` write is
a no-op, the schema has no such field).  Mongo `_id` is unique, so updating
every stored session matching the found document's filter updates exactly
the found document. -/
def mergeIntoUser (sessions : List Session) (prompts : List PromptRec)
    (sessionId anonId userId : String) :
    Option (List Session × List PromptRec) :=
  match sessions.find? (fun s => s.id == sessionId && s.anonId == some anonId) with
  | none => none
  | some _ =>
    some
      (sessions.map (fun s =>
         if s.id == sessionId && s.anonId == some anonId
         then { s with userId := some userId, anonId := none } else s),
       prompts.map (fun p =>
         if p.sessionId == some sessionId
         then { p with userId := some userId } else p))

/-- The turn query `Prompt.find({ userId })` used after merge. -/
def promptsOfUser (prompts : List PromptRec) (userId : String) : List PromptRec :=
  prompts.filter (fun p => p.userId == some userId)

/-- C7: merging session `s` (owned by anonymous-id `a`) into user `u`
succeeds and transfers both the session's owner and every turn of the
session: the post-merge store contains `s` with `userId = some u` and the
anonymous owner field cleared, every post-merge turn of the session carries
`userId = some u` (none is left behind under the old owner), and a query
for turns by the new user-id returns every turn originally recorded under
the session. -/
theorem mergeIntoUser_transfers_session_and_turns
    (sessions : List Session) (prompts : List PromptRec)
    (s : Session) (a u : String) (hs : s ∈ sessions) (ha : s.anonId = some a) :
    ∃ sessions' prompts',
      mergeIntoUser sessions prompts s.id a u = some (sessions', prompts') ∧
      ({ s with userId := some u, anonId := none } : Session) ∈ sessions' ∧
      (∀ p ∈ prompts', p.sessionId = some s.id → p.userId = some u) ∧
      (∀ p ∈ prompts, p.sessionId = some s.id →
        ({ p with userId := some u } : PromptRec) ∈ promptsOfUser prompts' u) := by
  have hmatch : (fun s' => s'.id == s.id && s'.anonId == some a) s = true := by
    simp [ha]
  have hfind : (sessions.find? (fun s' => s'.id == s.id && s'.anonId == some a)).isSome := by
    rw [List.find?_isSome]
    exact ⟨s, hs, hmatch⟩
  obtain ⟨x, hx⟩ := Option.isSome_iff_exists.mp hfind
  refine ⟨sessions.map (fun s' =>
            if s'.id == s.id && s'.anonId == some a
            then { s' with userId := some u, anonId := none } else s'),
          prompts.map (fun q =>
            if q.sessionId == some s.id
            then { q with userId := some u } else q), ?_, ?_, ?_, ?_⟩
  · rw [mergeIntoUser, hx]
  · have := List.mem_map_of_mem
      (fun s' => if s'.id == s.id && s'.anonId == some a
                 then { s' with userId := some u, anonId := none } else s') hs
    simpa [ha] using this
  · intro p hp hpsid
    obtain ⟨q, hq, hqe⟩ := List.mem_map.mp hp
    by_cases hqs : q.sessionId == some s.id
    · rw [← hqe]
      simp [hqs]
    · rw [← hqe] at hpsid
      simp [hqs] at hpsid
      exact absurd (by simp [hpsid]) hqs
  · intro p hp hpsid
    have hmem : ({ p with userId := some u } : PromptRec) ∈
        prompts.map (fun q => if q.sessionId == some s.id
                              then { q with userId := some u } else q) := by
      have := List.mem_map_of_mem
        (fun q => if q.sessionId == some s.id
                  then { q with userId := some u } else q) hp
      simpa [hpsid] using this
    exact List.mem_filter.mpr ⟨hmem, by simp⟩

/-- Witness for C7 on a concrete store: one session "s1" owned by anonymous
id "a1" with two turns, merged into user "u1". -/
theorem mergeIntoUser_transfers_session_and_turns_witness :
    ∃ sessions' prompts',
      mergeIntoUser
        [{ id := "s1", userId := none, anonId := some "a1", title := none,
           synopsis := emptySynopsis, synopsisVersion := 0 }]
        [{ id := "p1", userId := none, sessionId := some "s1",
           original := "hi", enhanced := "hello" },
         { id := "p2", userId := none, sessionId := some "s1",
           original := "more", enhanced := "even more" }]
        "s1" "a1" "u1" = some (sessions', prompts') ∧
      ({ id := "s1", userId := some "u1", anonId := none, title := none,
         synopsis := emptySynopsis, synopsisVersion := 0 } : Session) ∈ sessions' ∧
      (∀ p ∈ prompts', p.sessionId = some "s1" → p.userId = some "u1") ∧
      (∀ p ∈ [({ id := "p1", userId := none, sessionId := some "s1",
                 original := "hi", enhanced := "hello" } : PromptRec),
              { id := "p2", userId := none, sessionId := some "s1",
                original := "more", enhanced := "even more" }],
        p.sessionId = some "s1" →
        ({ p with userId := some "u1" } : PromptRec) ∈ promptsOfUser prompts' "u1") :=
  mergeIntoUser_transfers_session_and_turns
    [{ id := "s1", userId := none, anonId := some "a1", title := none,
       synopsis := emptySynopsis, synopsisVersion := 0 }]
    [{ id := "p1", userId := none, sessionId := some "s1",
       original := "hi", enhanced := "hello" },
     { id := "p2", userId := none, sessionId := some "s1",
       original := "more", enhanced := "even more" }]
    { id := "s1", userId := none, anonId := some "a1", title := none,
      synopsis := emptySynopsis, synopsisVersion := 0 }
    "a1" "u1" (by simp) rfl

/-- Character count of a JS string (the length of its character list). -/
def strLen (s : String) : Nat := s.length

/-- JS `s.substring(0, n)`: the first `n` characters. -/
def strTake (s : String) (n : Nat) : String := String.mk (s.data.take n)

/-- JS `Array.prototype.join(sep)` on a list of strings. -/
def joinSep (sep : String) : List String → String
  | [] => ""
  | [x] => x
  | x :: y :: xs => x ++ sep ++ joinSep sep (y :: xs)

/-- One chat message as handed to `buildContext` (`lastMessages` entries). -/
structure Msg where
  role : String
  content : String
  deriving Repr, DecidableEq

/-- The `contextUsed` telemetry pair. -/
structure ContextUsed where
  lastTurns : Nat
  synopsisChars : Nat
  deriving Repr, DecidableEq

/-- One `if (synopsis.field) { parts.push(label + value); chars += value.length }`
step: a truthy (present, non-empty) field yields a labeled line and its raw
character count. -/
def fieldPart (label : String) : Option String → List String × Nat
  | some v => if v = "" then ([], 0) else ([label ++ v], strLen v)
  | none => ([], 0)

/-- The synopsis portion of `buildContext`: the labeled lines in source
order and the accumulated `synopsisChars` (raw field lengths, labels
excluded; to-dos counted on their comma-joined form). -/
def synopsisRender (syn : Synopsis) : List String × Nat :=
  let g := fieldPart "Goal: " syn.goal
  let t := fieldPart "Tone: " syn.tone
  let c := fieldPart "Constraints: " syn.constraints
  let a := fieldPart "Audience: " syn.audience
  let st := fieldPart "Style: " syn.style
  let td : List String × Nat :=
    match syn.todos with
    | some ts =>
      if 0 < ts.length
      then (["TODOs: " ++ joinSep ", " ts], strLen (joinSep ", " ts))
      else ([], 0)
    | none => ([], 0)
  (g.1 ++ t.1 ++ c.1 ++ a.1 ++ st.1 ++ td.1, g.2 + t.2 + c.2 + a.2 + st.2 + td.2)

/-- JS `lastMessages.slice(-6)`: the trailing six entries (the whole list
when it is shorter). -/
def recentOf (msgs : List Msg) : List Msg := msgs.drop (msgs.length - 6)

/-- The assembled context string before the budget clamp: the
"Session Context" block (when any synopsis line exists) and the
"Recent conversation" block (when any recent message exists), joined by a
blank line. -/
def rawContext (syn : Synopsis) (msgs : List Msg) : String :=
  let sp := synopsisRender syn
  let recent := recentOf msgs
  let contextParts :=
    (if 0 < sp.1.length then ["Session Context:\n" ++ joinSep "\n" sp.1] else []) ++
    (if 0 < recent.length then
       ["Recent conversation:\n" ++
        joinSep "\n" (recent.map (fun m => m.role ++ ": " ++ m.content))]
     else [])
  joinSep "\n\n" contextParts

/-- `buildContext(synopsis, lastMessages)`: assemble the context, clamp it
to the 2000-character budget (appending the "..." marker on overflow), and
report `lastTurns` (how many recent messages were included, before any
truncation) and `synopsisChars`. -/
def buildContext (syn : Synopsis) (msgs : List Msg) : String × ContextUsed :=
  (if 2000 < strLen (rawContext syn msgs)
   then strTake (rawContext syn msgs) 2000 ++ "..."
   else rawContext syn msgs,
   { lastTurns := (recentOf msgs).length, synopsisChars := (synopsisRender syn).2 })

/-- C9: whenever the assembled context exceeds the 2000-character budget,
`buildContext` returns exactly the first 2000 characters with the "..."
marker appended (a hard cutoff, 2003 characters in all), and
`contextUsed.lastTurns` is the untruncated number of recent turns included:
the length of the supplied list capped at 6 (its trailing six entries). -/
theorem buildContext_truncates_to_budget (syn : Synopsis) (msgs : List Msg)
    (h : 2000 < strLen (rawContext syn msgs)) :
    (buildContext syn msgs).1 = strTake (rawContext syn msgs) 2000 ++ "..." ∧
    strLen (buildContext syn msgs).1 = 2003 ∧
    (buildContext syn msgs).2.lastTurns = min msgs.length 6 := by
  have hctx : (buildContext syn msgs).1 = strTake (rawContext syn msgs) 2000 ++ "..." := by
    simp only [buildContext]
    rw [if_pos h]
  refine ⟨hctx, ?_, ?_⟩
  · rw [hctx]
    simp only [strLen, String.length_append]
    have h1 : (strTake (rawContext syn msgs) 2000).length = 2000 := by
      simp only [strTake, String.length_mk, List.length_take, String.length_data]
      have h2 : 2000 ≤ (rawContext syn msgs).length := Nat.le_of_lt h
      omega
    rw [h1]
    rfl
  · simp [buildContext, recentOf, List.length_drop]
    omega

/-- Concrete over-budget input for C9: a single 2100-character message. -/
def overBudgetMsgs : List Msg :=
  [{ role := "user", content := String.mk (List.replicate 2100 'a') }]

/-- On `overBudgetMsgs` the assembled context is the single
recent-conversation block around the long message. -/
theorem rawContext_overBudget_eq :
    rawContext emptySynopsis overBudgetMsgs =
      "Recent conversation:\n" ++
        ("user" ++ ": " ++ String.mk (List.replicate 2100 'a')) := by
  unfold rawContext synopsisRender recentOf overBudgetMsgs
  simp [fieldPart, emptySynopsis, joinSep]

/-- The assembled context for `overBudgetMsgs` has 2127 characters. -/
theorem rawContext_overBudget_len :
    strLen (rawContext emptySynopsis overBudgetMsgs) = 2127 := by
  rw [rawContext_overBudget_eq]
  simp only [strLen, String.length_append, String.length_mk, List.length_replicate]
  rfl

/-- Witness for C9 at `overBudgetMsgs`: the assembled context has 2127
characters, so the clamp fires. -/
theorem buildContext_truncates_to_budget_witness :
    2000 < strLen (rawContext emptySynopsis overBudgetMsgs) ∧
    ((buildContext emptySynopsis overBudgetMsgs).1 =
        strTake (rawContext emptySynopsis overBudgetMsgs) 2000 ++ "..." ∧
     strLen (buildContext emptySynopsis overBudgetMsgs).1 = 2003 ∧
     (buildContext emptySynopsis overBudgetMsgs).2.lastTurns =
        min overBudgetMsgs.length 6) :=
  ⟨by simp [rawContext_overBudget_len],
   buildContext_truncates_to_budget emptySynopsis overBudgetMsgs
     (by simp [rawContext_overBudget_len])⟩

/-- Lower-casing of a JS string (the `/i` regex flag on ASCII patterns). -/
def lowerStr (s : String) : String := String.mk (s.data.map Char.toLower)

/-- An anchored `^pattern` regex test: the string starts with the pattern. -/
def strStartsWith (s p : String) : Bool := p.data.isPrefixOf s.data

/-- The `/\?$/` regex test: the string ends with a question mark. -/
def endsWithQuestionMark (s : String) : Bool :=
  match s.data.getLast? with
  | some c => c == '?'
  | none => false

/-- Continuation markers: `/^(continue|keep going|more|next|and then|also|additionally|furthermore|moreover)/i`. -/
def continuationCat : List String :=
  ["continue", "keep going", "more", "next", "and then", "also",
   "additionally", "furthermore", "moreover"]

/-- Clarifying-question markers: `/^(what about|how about|can you|could you|would you|please)/i`. -/
def clarifyingCat : List String :=
  ["what about", "how about", "can you", "could you", "would you", "please"]

/-- Contrastive markers: `/^(but|however|though|although|except|unless)/i`. -/
def contrastiveCat : List String :=
  ["but", "however", "though", "although", "except", "unless"]

/-- Affirmation markers: `/^(yes|no|ok|okay|sure|absolutely|definitely)/i`. -/
def affirmationCat : List String :=
  ["yes", "no", "ok", "okay", "sure", "absolutely", "definitely"]

/-- Acknowledgement markers: `/^(thanks|thank you|thx)/i`. -/
def thanksCat : List String :=
  ["thanks", "thank you", "thx"]

/-- The five anchored prefix-alternative categories, in source order (the
sixth category is the question-mark test). -/
def markerCats : List (List String) :=
  [continuationCat, clarifyingCat, contrastiveCat, affirmationCat, thanksCat]

/-- One anchored case-insensitive alternative test. -/
def matchesPrefixCat (cat : List String) (prompt : String) : Bool :=
  cat.any (fun p => strStartsWith (lowerStr prompt) p)

/-- Number of marker categories (out of six) matching the prompt. -/
def followUpScore (prompt : String) : Nat :=
  markerCats.countP (fun cat => matchesPrefixCat cat prompt) +
    (if endsWithQuestionMark prompt then 1 else 0)

/-- `classifyInput(prompt)`: `isFollowUp = followUpScore >= 1`,
`confidence = Math.min(followUpScore / 6, 1)` (exact rational value). -/
def classifyInput (prompt : String) : Bool × ℚ :=
  (decide (1 ≤ followUpScore prompt), min ((followUpScore prompt : ℚ) / 6) 1)

/-- C10: `classify("What about a shorter version?")` is a follow-up, with
both the clarifying-question category and the question-mark category
matching; `classify("Write a poem about the sea")` is not a follow-up; and
for every prompt `isFollowUp` is true iff at least one of the six
categories matches, while `confidence` is exactly the matched fraction
`followUpScore / 6`, lying in `[0, 1]`. -/
theorem classifyInput_spec :
    (classifyInput "What about a shorter version?").1 = true ∧
    matchesPrefixCat clarifyingCat "What about a shorter version?" = true ∧
    endsWithQuestionMark "What about a shorter version?" = true ∧
    (classifyInput "Write a poem about the sea").1 = false ∧
    ∀ s : String,
      ((classifyInput s).1 = true ↔
        (markerCats.any (fun cat => matchesPrefixCat cat s) = true ∨
         endsWithQuestionMark s = true)) ∧
      (classifyInput s).2 = (followUpScore s : ℚ) / 6 ∧
      0 ≤ (classifyInput s).2 ∧ (classifyInput s).2 ≤ 1 := by
  refine ⟨by decide, by decide, by decide, by decide, ?_⟩
  intro s
  have hscore : followUpScore s ≤ 6 := by
    have hcount : markerCats.countP (fun cat => matchesPrefixCat cat s) ≤
        markerCats.length := List.countP_le_length _
    have hlen : markerCats.length = 5 := rfl
    unfold followUpScore
    by_cases hq : endsWithQuestionMark s <;> simp [hq] <;> omega
  have hiffAny : ∀ (p : List String → Bool),
      1 ≤ markerCats.countP p ↔ markerCats.any p = true := fun p =>
    ⟨fun h => List.any_eq_true.mpr (List.countP_pos_iff.mp h),
     fun h => List.countP_pos_iff.mpr (List.any_eq_true.mp h)⟩
  refine ⟨?_, ?_, ?_, ?_⟩
  · simp only [classifyInput, decide_eq_true_eq]
    unfold followUpScore
    constructor
    · intro h1
      by_cases hq : endsWithQuestionMark s = true
      · exact Or.inr hq
      · rw [if_neg hq, Nat.add_zero] at h1
        exact Or.inl ((hiffAny _).mp h1)
    · intro h
      rcases h with hany | hq
      · exact Nat.le_trans ((hiffAny _).mpr hany) (Nat.le_add_right _ _)
      · rw [if_pos hq]
        exact Nat.le_add_left 1 _
  · have hle : ((followUpScore s : ℚ) / 6) ≤ 1 := by
      rw [div_le_one (by norm_num)]
      exact_mod_cast hscore
    simp [classifyInput, min_eq_left hle]
  · simp only [classifyInput]
    have h0 : (0 : ℚ) ≤ (followUpScore s : ℚ) / 6 := by positivity
    exact le_min h0 (by norm_num)
  · simp only [classifyInput]
    exact min_le_right _ _

end PromptEnhancer
